import Mathlib

/-!
Verification of the model acquisition and cache management subsystem of the
audio-transcription repository, as a shallow embedding of the Rust sources
`src/core/model/download.rs` and `src/core/model/model_manager.rs`.

Filesystem paths are modelled as lists of components; `PathBuf::join` is
appending one component.  The filesystem is an association list from paths to
objects (regular file with its content, directory with its reported st_size,
absent, or a probing error standing for `permission denied` style failures,
matching what `std::fs::metadata` / `Path::exists` can observe).  The network,
the external `tar` process, the clock and the operator's input line are
unresolved inputs carried in a `World`; every externally visible action is
recorded in an event log so that ordering and absence-of-effect claims can be
stated exactly.
-/

namespace AudioTranscription

/-- A filesystem path: the list of components joined by `PathBuf::join`. -/
abbrev Path := List String

/-- `PathBuf::join` with a single component. -/
def pathJoin (p : Path) (s : String) : Path := p ++ [s]

/-- `Path::display`, abstracted as joining the components with a slash. -/
def pathStr (p : Path) : String := String.intercalate "/" p

/-- The five Whisper model sizes (enum `ModelSize` in `lib.rs`). -/
inductive ModelSize
  | tiny
  | base
  | small
  | medium
  | large
deriving DecidableEq

/-- The `Display` implementation of `ModelSize` (`lib.rs` lines 21-30). -/
def ModelSize.sizeName : ModelSize → String
  | .tiny => "tiny"
  | .base => "base"
  | .small => "small"
  | .medium => "medium"
  | .large => "large"

/-- The list iterated by `create_directory_structure` (`model_manager.rs` line 112). -/
def allSizes : List ModelSize := [.tiny, .base, .small, .medium, .large]

/-- What the filesystem holds at one path, as observable through
`Path::exists` and `std::fs::metadata`: nothing, a regular file with its
content, a directory with the st_size that `Metadata::len` reports for it,
or a probing error (e.g. permission denied). -/
inductive FsObject
  | absent
  | file (content : String)
  | dir (stSize : Nat)
  | ioErr
deriving DecidableEq

/-- The filesystem: an association list from paths to objects; earlier
entries shadow later ones, a missing entry means the path is absent. -/
abbrev FS := List (Path × FsObject)

/-- First entry stored for a path, if any. -/
def lookupFS : FS → Path → Option FsObject
  | [], _ => none
  | (q, o) :: rest, p => if q = p then some o else lookupFS rest p

/-- The object at a path (absent when no entry exists). -/
def stat (fs : FS) (p : Path) : FsObject := (lookupFS fs p).getD .absent

/-- `Path::exists`: false for a missing path and on probing errors. -/
def objExists : FsObject → Bool
  | .absent => false
  | .ioErr => false
  | _ => true

/-- `std::fs::metadata(..).map(|m| m.len())`: the reported length, `none`
standing for an `Err` result. -/
def metadataLen : FsObject → Option Nat
  | .file c => some c.length
  | .dir n => some n
  | _ => none

/-- Whether the object is a directory. -/
def isDir : FsObject → Bool
  | .dir _ => true
  | _ => false

/-- Whether the object is a regular file. -/
def isFile : FsObject → Bool
  | .file _ => true
  | _ => false

/-- `path.exists()` on the filesystem. -/
def path_exists (fs : FS) (p : Path) : Bool := objExists (stat fs p)

/-- `std::fs::metadata(path).map(|m| m.len())` on the filesystem. -/
def metadata_len (fs : FS) (p : Path) : Option Nat := metadataLen (stat fs p)

/-- `std::fs::metadata(path).map(|m| m.len() > 0).unwrap_or(false)`:
the length test with filesystem errors failing closed. -/
def meta_len_pos (fs : FS) (p : Path) : Bool :=
  ((metadata_len fs p).map (fun n => decide (0 < n))).getD false

/-- The availability pattern both checkers apply to one path
(`download.rs` lines 206-209 and 218-224): `exists()` and positive length. -/
def fileAvailable (fs : FS) (p : Path) : Bool :=
  path_exists fs p && meta_len_pos fs p

/-- `get_whisper_model_path` (`download.rs` lines 10-12). -/
def get_whisper_model_path (cache_dir : Path) (size : ModelSize) : Path :=
  pathJoin (pathJoin (pathJoin cache_dir "whisper") size.sizeName)
    ("ggml-" ++ size.sizeName ++ ".bin")

/-- `get_pyannote_model_dir` (`download.rs` lines 15-17). -/
def get_pyannote_model_dir (cache_dir : Path) : Path :=
  pathJoin cache_dir "pyannote"

/-- `get_pyannote_model_path`, the setup marker file (`download.rs` lines 20-22). -/
def get_pyannote_model_path (cache_dir : Path) : Path :=
  pathJoin (get_pyannote_model_dir cache_dir) "setup_complete.txt"

/-- `get_pyannote_segmentation_model_path` (`download.rs` lines 25-30). -/
def get_pyannote_segmentation_model_path (cache_dir : Path) : Path :=
  pathJoin (pathJoin (get_pyannote_model_dir cache_dir)
    "sherpa-onnx-pyannote-segmentation-3-0") "model.onnx"

/-- `get_speaker_embedding_model_path` (`download.rs` lines 33-35). -/
def get_speaker_embedding_model_path (cache_dir : Path) : Path :=
  pathJoin (get_pyannote_model_dir cache_dir)
    "3dspeaker_speech_eres2net_base_sv_zh-cn_3dspeaker_16k.onnx"

/-- `is_transcription_model_available` (`download.rs` lines 204-210):
`model_path.exists() && metadata(model_path).map(|m| m.len() > 0).unwrap_or(false)`. -/
def is_transcription_model_available (fs : FS) (cache_dir : Path) (model_size : ModelSize) : Bool :=
  let model_path := get_whisper_model_path cache_dir model_size
  path_exists fs model_path && meta_len_pos fs model_path

/-- `is_diarization_model_available` (`download.rs` lines 213-225): both ONNX
files must exist and both must have positive length, in the source's order. -/
def is_diarization_model_available (fs : FS) (cache_dir : Path) : Bool :=
  let segmentation_model := get_pyannote_segmentation_model_path cache_dir
  let embedding_model := get_speaker_embedding_model_path cache_dir
  path_exists fs segmentation_model && path_exists fs embedding_model &&
    meta_len_pos fs segmentation_model && meta_len_pos fs embedding_model

/-- All the paths `p.inits` would give: every leading segment of a path,
from the empty path up to the path itself.  These are the directories
`std::fs::create_dir_all` brings into existence. -/
def initsOf : Path → List Path
  | [] => [[]]
  | a :: rest => [] :: (initsOf rest).map (a :: ·)

/-- A path where `create_dir_all` can place a directory: currently absent or
already a directory. -/
def canBeDir : FsObject → Bool
  | .absent => true
  | .dir _ => true
  | _ => false

/-- Whether the object is `absent`. -/
def isAbsent : FsObject → Bool
  | .absent => true
  | _ => false

/-- The st_size the platform reports for a fresh directory. -/
def dirSz : Nat := 4096

/-- `std::fs::create_dir_all`: creates the path and every missing leading
segment as a directory; fails when some leading segment is a regular file or
cannot be probed.  Existing directories are left untouched. -/
def createDirAll (fs : FS) (p : Path) : Option FS :=
  if (initsOf p).all (fun q => canBeDir (stat fs q)) then
    some ((((initsOf p).filter (fun q => isAbsent (stat fs q))).map
      (fun q => (q, FsObject.dir dirSz))) ++ fs)
  else none

/-- The error kinds of `AudioTranscriptionError` that this subsystem can
produce (`error.rs`): `Io`, `Network` (with the HTTP status when the server
answered), `Model` and `Configuration`. -/
inductive Err
  | io (msg : String)
  | network (statusCode : Option Nat)
  | model (msg : String)
  | config (msg : String)
deriving DecidableEq

/-- The `Display` rendering of the error enum (`error.rs`). -/
def errDisplay : Err → String
  | .io m => "IO error: " ++ m
  | .network none => "Network error: transport failure"
  | .network (some c) => "Network error: status " ++ toString c
  | .model m => "Model error: " ++ m
  | .config m => "Configuration error: " ++ m

/-- One HTTP response: a transport failure from `send()`, or a status code
with the body as a stream of chunks (a `none` chunk is a mid-stream error). -/
inductive NetResp
  | transportErr
  | status (code : Nat) (body : List (Option String))

/-- `reqwest::StatusCode::is_success`: 2xx. -/
def isSuccessStatus (code : Nat) : Bool :=
  decide (200 ≤ code) && decide (code < 300)

/-- The outcome of running the external `tar` process: its exit status, its
captured stderr, and the files it drops on the filesystem. -/
structure TarRes where
  exitSuccess : Bool
  stderr : String
  writes : List (Path × String)

/-- Externally visible actions, recorded in order: a recursive directory
creation, an HTTP GET, opening a destination file for (truncating) write, a
run of the external extraction tool, a file removal, and the operator prompt. -/
inductive Event
  | mkdir (p : Path)
  | get (url : String)
  | writeStart (p : Path)
  | tarRun (archive dest : Path)
  | rmFile (p : Path)
  | prompt
deriving DecidableEq

/-- The state the subsystem acts on: the filesystem plus the unresolved
environment (network behaviour, `tar` behaviour, whether `remove_file` fails,
the operator's input line, `std::env::temp_dir()`, the formatted clock), and
the log of externally visible actions performed so far. -/
structure World where
  fs : FS
  net : String → NetResp
  tarExec : Path → Path → TarRes
  rmFails : Path → Bool
  userInput : String
  tmpDir : Path
  now : String
  log : List Event

/-- ASCII whitespace for `str::trim`. -/
def isWS (c : Char) : Bool := c = ' ' || c = '\t' || c = '\n' || c = '\r'

/-- ASCII lowering of one character, as `to_lowercase` acts on ASCII. -/
def lowerChar (c : Char) : Char :=
  if 65 ≤ c.toNat ∧ c.toNat ≤ 90 then Char.ofNat (c.toNat + 32) else c

/-- `input.trim().to_lowercase()` (`model_manager.rs` line 73), modelled for
ASCII input: drop surrounding whitespace, lower every character. -/
def trimLower (s : String) : String :=
  String.mk ((((s.data.dropWhile isWS).reverse.dropWhile isWS).reverse).map lowerChar)

/-- `File::create(destination)` (`download.rs` line 57): truncate or create
the file; fails when the path holds a directory or cannot be opened. -/
def fileCreate (fs : FS) (p : Path) : Option FS :=
  match stat fs p with
  | .dir _ => none
  | .ioErr => none
  | _ => some ((p, FsObject.file "") :: fs)

/-- The streaming loop of `download_model` (`download.rs` lines 61-66): each
arriving chunk is appended to the destination file; a chunk error aborts the
loop, leaving the partial file in place. -/
def streamBody (fs : FS) (p : Path) (acc : String) : List (Option String) → Except Err Unit × FS
  | [] => (.ok ⟨⟩, fs)
  | none :: _ => (.error (.network none), fs)
  | some c :: rest => streamBody ((p, FsObject.file (acc ++ c)) :: fs) p (acc ++ c) rest

/-- The content the streaming loop accumulates from the error-free part of a
body, starting from `acc`. -/
def accBody (acc : String) : List (Option String) → String
  | [] => acc
  | none :: _ => acc
  | some c :: rest => accBody (acc ++ c) rest

/-- Whether every chunk of the body arrives without a stream error. -/
def okChunks : List (Option String) → Bool
  | [] => true
  | none :: _ => false
  | some _ :: rest => okChunks rest

/-- The parent-directory step of `download_model` (`download.rs` lines 40-43):
`if let Some(parent) = destination.parent() { create_dir_all(parent)? }`. -/
def ensureParent (dest : Path) (w : World) : Except Err Unit × World :=
  if dest = [] then (.ok ⟨⟩, w)
  else
    let w1 := {w with log := w.log ++ [Event.mkdir dest.dropLast]}
    match createDirAll w.fs dest.dropLast with
    | none => (.error (.io "create_dir_all failed"), w1)
    | some fs1 => (.ok ⟨⟩, {w1 with fs := fs1})

/-- `download_model` (`download.rs` lines 38-79): ensure the parent directory,
GET the url, fail with a Network error carrying the status when it is not a
success, otherwise create the destination file, stream the body into it, then
stat the result and reject a zero-length artifact. -/
def download_model (url : String) (dest : Path) (w : World) : Except Err Unit × World :=
  match ensureParent dest w with
  | (.error e, w1) => (.error e, w1)
  | (.ok _, w1) =>
    let w2 := {w1 with log := w1.log ++ [Event.get url]}
    match w2.net url with
    | .transportErr => (.error (.network none), w2)
    | .status code body =>
      if isSuccessStatus code then
        match fileCreate w2.fs dest with
        | none => (.error (.io "file create failed"), w2)
        | some fs3 =>
          let w3 := {w2 with fs := fs3, log := w2.log ++ [Event.writeStart dest]}
          match streamBody w3.fs dest "" body with
          | (.error e, fs4) => (.error e, {w3 with fs := fs4})
          | (.ok _, fs4) =>
            let w4 := {w3 with fs := fs4}
            match metadataLen (stat w4.fs dest) with
            | none => (.error (.io "metadata failed"), w4)
            | some n =>
              if n = 0 then (.error (.model "Downloaded model file is empty"), w4)
              else (.ok ⟨⟩, w4)
      else (.error (.network (some code)), w2)

/-- The templated Whisper model URL (`download.rs` lines 89-92). -/
def whisper_url (model_size : ModelSize) : String :=
  "https://huggingface.co/ggerganov/whisper.cpp/resolve/main/ggml-"
    ++ model_size.sizeName ++ ".bin"

/-- The fixed segmentation-archive URL (`download.rs` line 113). -/
def segmentation_url : String :=
  "https://github.com/k2-fsa/sherpa-onnx/releases/download/speaker-segmentation-models/sherpa-onnx-pyannote-segmentation-3-0.tar.bz2"

/-- The fixed speaker-embedding URL (`download.rs` line 146). -/
def embedding_url : String :=
  "https://github.com/k2-fsa/sherpa-onnx/releases/download/speaker-recongition-models/3dspeaker_speech_eres2net_base_sv_zh-cn_3dspeaker_16k.onnx"

/-- `download_transcription_model` (`download.rs` lines 82-104): one
`download_model` call to the templated URL, landing at the layout path. -/
def download_transcription_model (cache_dir : Path) (model_size : ModelSize) (w : World) :
    Except Err Unit × World :=
  download_model (whisper_url model_size) (get_whisper_model_path cache_dir model_size) w

/-- The files the external tool writes, placed on the filesystem. -/
def applyWrites (ws : List (Path × String)) (fs : FS) : FS :=
  (ws.map (fun e => (e.1, FsObject.file e.2))) ++ fs

/-- `extract_tar_bz2` (`download.rs` lines 181-201): create the extraction
directory, run `tar -xjf <archive> -C <dir>`, and on a non-zero exit status
fail with a Model error carrying the captured stderr. -/
def extract_tar_bz2 (archive_path extract_to : Path) (w : World) : Except Err Unit × World :=
  let w1 := {w with log := w.log ++ [Event.mkdir extract_to]}
  match createDirAll w.fs extract_to with
  | none => (.error (.io "create_dir_all failed"), w1)
  | some fs1 =>
    let r := w.tarExec archive_path extract_to
    let w2 := {w1 with fs := applyWrites r.writes fs1,
                       log := w1.log ++ [Event.tarRun archive_path extract_to]}
    if r.exitSuccess then (.ok ⟨⟩, w2)
    else (.error (.model ("Failed to extract archive: " ++ r.stderr)), w2)

/-- The scratch path `temp_dir().join("pyannote-segmentation.tar.bz2")`
(`download.rs` lines 118-119). -/
def segTempPath (w : World) : Path := pathJoin w.tmpDir "pyannote-segmentation.tar.bz2"

/-- `let _ = std::fs::remove_file(&temp_file)` (`download.rs` line 135):
best-effort removal, a failing removal is ignored. -/
def rmArchive (p : Path) (w : World) : World :=
  {w with fs := if w.rmFails p then w.fs else (p, FsObject.absent) :: w.fs,
          log := w.log ++ [Event.rmFile p]}

/-- The text `download_diarization_model` writes into the completion marker
(`download.rs` lines 162-173). -/
def markerContent (now : String) (segP embP : Path) : String :=
  "Sherpa-ONNX diarization setup completed at: " ++ now ++
  "\nSegmentation model: sherpa-onnx-pyannote-segmentation-3-0" ++
  "\nEmbedding model: 3dspeaker_speech_eres2net_base_sv_zh-cn_3dspeaker_16k" ++
  "\n\nModels are ready for speaker diarization using sherpa-onnx." ++
  "\nSegmentation model: " ++ pathStr segP ++
  "\nEmbedding model: " ++ pathStr embP ++ "\n"

/-- The tail of `download_diarization_model` after the archive cleanup
(`download.rs` lines 144-177): download the embedding model to its layout
path, then write the completion marker. -/
def embMarkerPhase (cache_dir : Path) (w : World) : Except Err Unit × World :=
  let embedding_model_path := get_speaker_embedding_model_path cache_dir
  match download_model embedding_url embedding_model_path w with
  | (.error e, w1) => (.error e, w1)
  | (.ok _, w1) =>
    let marker_path := get_pyannote_model_path cache_dir
    let content := markerContent w1.now
      (get_pyannote_segmentation_model_path cache_dir) embedding_model_path
    (.ok ⟨⟩, {w1 with fs := (marker_path, FsObject.file content) :: w1.fs,
                      log := w1.log ++ [Event.writeStart marker_path]})

/-- `download_diarization_model` (`download.rs` lines 108-178): download the
segmentation archive to the scratch path, extract it into the pyannote
directory (wrapping an extraction failure), delete the scratch archive
best-effort, then download the embedding model and write the marker. -/
def download_diarization_model (cache_dir : Path) (w : World) : Except Err Unit × World :=
  let temp_file := segTempPath w
  match download_model segmentation_url temp_file w with
  | (.error e, w1) => (.error e, w1)
  | (.ok _, w1) =>
    match extract_tar_bz2 temp_file (get_pyannote_model_dir cache_dir) w1 with
    | (.error e, w2) =>
      (.error (.model ("Failed to extract segmentation model: " ++ errDisplay e)), w2)
    | (.ok _, w2) => embMarkerPhase cache_dir (rmArchive temp_file w2)

/-- The acquisition block of `ensure_models_available`
(`model_manager.rs` lines 78-93): the missing transcription model first,
then the missing diarization bundle, each failure aborting immediately. -/
def acquireModels (cache_dir : Path) (model_size : ModelSize) (ta da : Bool) (w : World) :
    Except Err Bool × World :=
  match (if ta then (.ok ⟨⟩, w) else download_transcription_model cache_dir model_size w :
      Except Err Unit × World) with
  | (.error e, w1) => (.error e, w1)
  | (.ok _, w1) =>
    match (if da then (.ok ⟨⟩, w1) else download_diarization_model cache_dir w1 :
        Except Err Unit × World) with
    | (.error e, w2) => (.error e, w2)
    | (.ok _, w2) => (.ok true, w2)

/-- `ModelManager::ensure_models_available` (`model_manager.rs` lines 41-94):
check both availabilities, succeed immediately when both hold, otherwise
prompt the operator, return `Ok(false)` on a declining answer, and otherwise
acquire the missing models. -/
def ensure_models_available (cache_dir : Path) (model_size : ModelSize) (w : World) :
    Except Err Bool × World :=
  let transcription_available := is_transcription_model_available w.fs cache_dir model_size
  let diarization_available := is_diarization_model_available w.fs cache_dir
  if transcription_available && diarization_available then (.ok true, w)
  else
    let w1 := {w with log := w.log ++ [Event.prompt]}
    let input := trimLower w.userInput
    if input = "n" ∨ input = "no" then (.ok false, w1)
    else acquireModels cache_dir model_size transcription_available diarization_available w1

/-- The per-size loop of `create_directory_structure`
(`model_manager.rs` lines 112-118). -/
def createSizeDirs (fs : FS) (whisper_dir : Path) : List ModelSize → Option FS
  | [] => some fs
  | s :: rest =>
    match createDirAll fs (pathJoin whisper_dir s.sizeName) with
    | none => none
    | some fs1 => createSizeDirs fs1 whisper_dir rest

/-- `ModelManager::create_directory_structure` (`model_manager.rs` lines
97-128): the cache root, the whisper directory, one directory per model size,
and the pyannote directory. -/
def create_directory_structure (cache_dir : Path) (fs : FS) : Option FS :=
  match createDirAll fs cache_dir with
  | none => none
  | some fs1 =>
    let whisper_dir := pathJoin cache_dir "whisper"
    match createDirAll fs1 whisper_dir with
    | none => none
    | some fs2 =>
      match createSizeDirs fs2 whisper_dir allSizes with
      | none => none
      | some fs3 =>
        match createDirAll fs3 (pathJoin cache_dir "pyannote") with
        | none => none
        | some fs4 => some fs4

/-- `ModelManager::new` (`model_manager.rs` lines 12-37): resolve the platform
cache directory (`None` is a Configuration error), join
`audio-transcribe/models`, and create the directory structure. -/
def ModelManager_new (platformCacheDir : Option Path) (fs : FS) : Except Err (Path × FS) :=
  match platformCacheDir with
  | none => .error (.config "Unable to determine cache directory")
  | some base =>
    let cache_dir := pathJoin (pathJoin base "audio-transcribe") "models"
    match create_directory_structure cache_dir fs with
    | none => .error (.config "Failed to create cache directory structure")
    | some fs1 => .ok (cache_dir, fs1)

/-- The three artifact identities of the data model, for stating that the
layout is injective. -/
inductive ModelSpec
  | transcription (size : ModelSize)
  | diarSeg
  | diarEmb
deriving DecidableEq

/-- The canonical path of each artifact under a cache root. -/
def pathOfSpec (cache_dir : Path) : ModelSpec → Path
  | .transcription size => get_whisper_model_path cache_dir size
  | .diarSeg => get_pyannote_segmentation_model_path cache_dir
  | .diarEmb => get_speaker_embedding_model_path cache_dir

theorem lookupFS_append (l1 l2 : FS) (p : Path) :
    lookupFS (l1 ++ l2) p = match lookupFS l1 p with
      | some o => some o
      | none => lookupFS l2 p := by
  induction l1 with
  | nil => simp [lookupFS]
  | cons e rest ih =>
    obtain ⟨q, o⟩ := e
    by_cases h : q = p <;> simp [lookupFS, h, ih]

theorem lookupFS_map_const (l : List Path) (o : FsObject) (p : Path) :
    lookupFS (l.map (fun q => (q, o))) p = if p ∈ l then some o else none := by
  induction l with
  | nil => simp [lookupFS]
  | cons a rest ih =>
    by_cases h : a = p
    · simp [lookupFS, h]
    · simp [lookupFS, h, ih, Ne.symm h]

theorem mem_initsOf_self (p : Path) : p ∈ initsOf p := by
  induction p with
  | nil => simp [initsOf]
  | cons a rest ih =>
    simp only [initsOf, List.mem_cons, List.mem_map]
    exact Or.inr ⟨rest, ih, rfl⟩

theorem length_le_of_mem_initsOf {q p : Path} (h : q ∈ initsOf p) : q.length ≤ p.length := by
  induction p generalizing q with
  | nil =>
    simp only [initsOf, List.mem_singleton] at h
    simp [h]
  | cons a rest ih =>
    simp only [initsOf, List.mem_cons, List.mem_map] at h
    rcases h with rfl | ⟨r, hr, rfl⟩
    · simp
    · simpa using Nat.succ_le_succ (ih hr)

theorem stat_append (l1 l2 : FS) (p : Path) :
    stat (l1 ++ l2) p = match lookupFS l1 p with
      | some o => o
      | none => stat l2 p := by
  unfold stat
  rw [lookupFS_append]
  cases lookupFS l1 p <;> rfl

theorem createDirAll_stat {fs : FS} {p : Path} {fs' : FS}
    (h : createDirAll fs p = some fs') (q : Path) :
    stat fs' q =
      if q ∈ (initsOf p).filter (fun r => isAbsent (stat fs r)) then FsObject.dir dirSz
      else stat fs q := by
  unfold createDirAll at h
  split at h
  · cases h
    rw [stat_append, lookupFS_map_const]
    by_cases hq : q ∈ (initsOf p).filter (fun r => isAbsent (stat fs r))
    · rw [if_pos hq, if_pos hq]
    · rw [if_neg hq, if_neg hq]
  · cases h

theorem createDirAll_cond {fs : FS} {p : Path} {fs' : FS} (h : createDirAll fs p = some fs') :
    (initsOf p).all (fun q => canBeDir (stat fs q)) = true := by
  unfold createDirAll at h
  split at h
  · assumption
  · cases h

theorem createDirAll_isDir {fs : FS} {p : Path} {fs' : FS} (h : createDirAll fs p = some fs') :
    isDir (stat fs' p) = true := by
  rw [createDirAll_stat h p]
  by_cases hmem : p ∈ (initsOf p).filter (fun r => isAbsent (stat fs r))
  · simp [hmem, isDir]
  · rw [if_neg hmem]
    have hcond := createDirAll_cond h
    rw [List.all_eq_true] at hcond
    have hcb : canBeDir (stat fs p) = true := hcond p (mem_initsOf_self p)
    have hna : isAbsent (stat fs p) = false := by
      by_contra hx
      exact hmem (List.mem_filter.mpr ⟨mem_initsOf_self p, by simpa using hx⟩)
    cases hstat : stat fs p with
    | absent => rw [hstat] at hna; exact absurd hna (by simp [isAbsent])
    | file c => rw [hstat] at hcb; exact absurd hcb (by simp [canBeDir])
    | dir n => rfl
    | ioErr => rw [hstat] at hcb; exact absurd hcb (by simp [canBeDir])

theorem createDirAll_stat_or {fs : FS} {p : Path} {fs' : FS}
    (h : createDirAll fs p = some fs') (q : Path) :
    stat fs' q = FsObject.dir dirSz ∨ stat fs' q = stat fs q := by
  rw [createDirAll_stat h q]
  split <;> simp

theorem createDirAll_preserves_isDir {fs : FS} {p : Path} {fs' : FS} {q : Path}
    (h : createDirAll fs p = some fs') (hd : isDir (stat fs q) = true) :
    isDir (stat fs' q) = true := by
  rcases createDirAll_stat_or h q with h1 | h1 <;> rw [h1]
  · rfl
  · exact hd

theorem createDirAll_absent_of_changed {fs : FS} {p : Path} {fs' : FS} {q : Path}
    (h : createDirAll fs p = some fs') (hne : stat fs' q ≠ stat fs q) :
    stat fs q = FsObject.absent ∧ stat fs' q = FsObject.dir dirSz ∧ q ∈ initsOf p := by
  rw [createDirAll_stat h q] at hne ⊢
  by_cases hmem : q ∈ (initsOf p).filter (fun r => isAbsent (stat fs r))
  · have hq := List.mem_filter.mp hmem
    have habs : isAbsent (stat fs q) = true := by simpa using hq.2
    have : stat fs q = FsObject.absent := by
      cases hstat : stat fs q with
      | absent => rfl
      | file c => rw [hstat] at habs; exact absurd habs (by simp [isAbsent])
      | dir n => rw [hstat] at habs; exact absurd habs (by simp [isAbsent])
      | ioErr => rw [hstat] at habs; exact absurd habs (by simp [isAbsent])
    exact ⟨this, by simp [hmem], hq.1⟩
  · rw [if_neg hmem] at hne
    exact absurd rfl hne

theorem createDirAll_stat_of_longer {fs : FS} {p : Path} {fs' : FS} {q : Path}
    (h : createDirAll fs p = some fs') (hlen : p.length < q.length) :
    stat fs' q = stat fs q := by
  rw [createDirAll_stat h q, if_neg]
  intro hmem
  have := length_le_of_mem_initsOf (List.mem_of_mem_filter hmem)
  omega

theorem stat_after_parent {fs : FS} {dest : Path} {fs' : FS} (hne : dest ≠ [])
    (h : createDirAll fs dest.dropLast = some fs') : stat fs' dest = stat fs dest := by
  refine createDirAll_stat_of_longer h ?_
  rw [List.length_dropLast]
  cases dest with
  | nil => exact absurd rfl hne
  | cons a rest => simp

theorem streamBody_ok {body : List (Option String)} (hok : okChunks body = true) :
    ∀ (fs : FS) (p : Path) (acc : String),
      (streamBody fs p acc body).1 = Except.ok ⟨⟩ ∧
      stat (streamBody fs p acc body).2 p =
        (if body.isEmpty then stat fs p else FsObject.file (accBody acc body)) := by
  induction body with
  | nil => intro fs p acc; simp [streamBody, accBody]
  | cons c rest ih =>
    intro fs p acc
    cases c with
    | none => exact absurd hok (by simp [okChunks])
    | some s =>
      have hok' : okChunks rest = true := by simpa [okChunks] using hok
      obtain ⟨h1, h2⟩ := ih hok' ((p, FsObject.file (acc ++ s)) :: fs) p (acc ++ s)
      refine ⟨h1, ?_⟩
      show stat (streamBody ((p, FsObject.file (acc ++ s)) :: fs) p (acc ++ s) rest).2 p = _
      rw [h2]
      cases rest with
      | nil => simp [stat, lookupFS, accBody]
      | cons d ds => simp [accBody]

theorem streamBody_err {body : List (Option String)} (hok : okChunks body = false) :
    ∀ (fs : FS) (p : Path) (acc : String),
      (streamBody fs p acc body).1 = Except.error (Err.network none) := by
  induction body with
  | nil => intro fs p acc; exact absurd hok (by simp [okChunks])
  | cons c rest ih =>
    intro fs p acc
    cases c with
    | none => rfl
    | some s => exact ih (by simpa [okChunks] using hok) _ p (acc ++ s)

theorem stat_cons_self (p : Path) (o : FsObject) (fs : FS) : stat ((p, o) :: fs) p = o := by
  simp [stat, lookupFS]

theorem stat_cons_ne {q p : Path} (hne : q ≠ p) (o : FsObject) (fs : FS) :
    stat ((q, o) :: fs) p = stat fs p := by
  simp [stat, lookupFS, hne]

/-- The fields of the world that no operation of this subsystem modifies:
the environment (network, tar, removal behaviour, operator input, temp
directory, clock) as opposed to the filesystem and the event log. -/
def sameEnv (w w' : World) : Prop :=
  w'.net = w.net ∧ w'.tarExec = w.tarExec ∧ w'.rmFails = w.rmFails ∧
  w'.userInput = w.userInput ∧ w'.tmpDir = w.tmpDir ∧ w'.now = w.now

theorem sameEnv_refl (w : World) : sameEnv w w := ⟨rfl, rfl, rfl, rfl, rfl, rfl⟩

theorem sameEnv_trans {a b c : World} (h1 : sameEnv a b) (h2 : sameEnv b c) : sameEnv a c := by
  obtain ⟨x1, x2, x3, x4, x5, x6⟩ := h1
  obtain ⟨y1, y2, y3, y4, y5, y6⟩ := h2
  exact ⟨y1.trans x1, y2.trans x2, y3.trans x3, y4.trans x4, y5.trans x5, y6.trans x6⟩

theorem ensureParent_nil (w : World) : ensureParent [] w = (.ok ⟨⟩, w) := by
  unfold ensureParent
  rw [if_pos rfl]

theorem ensureParent_some {dest : Path} (hne : dest ≠ []) {fs1 : FS} (w : World)
    (hc : createDirAll w.fs dest.dropLast = some fs1) :
    ensureParent dest w =
      (.ok ⟨⟩, {w with fs := fs1, log := w.log ++ [Event.mkdir dest.dropLast]}) := by
  unfold ensureParent
  rw [if_neg hne, hc]

theorem ensureParent_none {dest : Path} (hne : dest ≠ []) (w : World)
    (hc : createDirAll w.fs dest.dropLast = none) :
    ensureParent dest w =
      (.error (.io "create_dir_all failed"), {w with log := w.log ++ [Event.mkdir dest.dropLast]}) := by
  unfold ensureParent
  rw [if_neg hne, hc]

theorem fileCreate_eq {fs : FS} {p : Path} {fs' : FS} (h : fileCreate fs p = some fs') :
    fs' = (p, FsObject.file "") :: fs := by
  unfold fileCreate at h
  split at h
  · cases h
  · cases h
  · cases h
    rfl

/-- Full case inversion of `download_model` for a non-root destination: one
disjunct per exit path of the source function, each recording the final
world exactly. -/
theorem download_model_inv {url : String} {dest : Path} {w : World} {r : Except Err Unit}
    {w' : World} (h : download_model url dest w = (r, w')) (hne : dest ≠ []) :
    (createDirAll w.fs dest.dropLast = none ∧ r = .error (.io "create_dir_all failed") ∧
      w' = {w with log := w.log ++ [Event.mkdir dest.dropLast]}) ∨
    ∃ fs1, createDirAll w.fs dest.dropLast = some fs1 ∧
      ((w.net url = .transportErr ∧ r = .error (.network none) ∧
         w' = {w with fs := fs1, log := w.log ++ [Event.mkdir dest.dropLast, Event.get url]}) ∨
       (∃ code body, w.net url = .status code body ∧ isSuccessStatus code = false ∧
         r = .error (.network (some code)) ∧
         w' = {w with fs := fs1, log := w.log ++ [Event.mkdir dest.dropLast, Event.get url]}) ∨
       (∃ code body, w.net url = .status code body ∧ isSuccessStatus code = true ∧
         fileCreate fs1 dest = none ∧ r = .error (.io "file create failed") ∧
         w' = {w with fs := fs1, log := w.log ++ [Event.mkdir dest.dropLast, Event.get url]}) ∨
       (∃ code body fs3, w.net url = .status code body ∧ isSuccessStatus code = true ∧
         fileCreate fs1 dest = some fs3 ∧
         w'.log = w.log ++ [Event.mkdir dest.dropLast, Event.get url, Event.writeStart dest] ∧
         sameEnv w w' ∧
         ((okChunks body = false ∧ r = .error (.network none)) ∨
          (okChunks body = true ∧ stat w'.fs dest = .file (accBody "" body) ∧
            (((accBody "" body).length = 0 ∧
                r = .error (.model "Downloaded model file is empty")) ∨
             (0 < (accBody "" body).length ∧ r = .ok ⟨⟩)))))) := by
  unfold download_model at h
  rcases hc : createDirAll w.fs dest.dropLast with _ | fs1
  · rw [ensureParent_none hne w hc] at h
    dsimp only at h
    injection h with h1 h2
    exact Or.inl ⟨rfl, h1.symm, h2.symm⟩
  · rw [ensureParent_some hne w hc] at h
    dsimp only at h
    refine Or.inr ⟨fs1, rfl, ?_⟩
    rcases hn : w.net url with _ | ⟨code, body⟩
    · rw [hn] at h
      dsimp only at h
      injection h with h1 h2
      refine Or.inl ⟨rfl, h1.symm, ?_⟩
      rw [← h2]
      simp
    · rw [hn] at h
      dsimp only at h
      by_cases hs : isSuccessStatus code = true
      · rw [if_pos hs] at h
        rcases hfc : fileCreate fs1 dest with _ | fs3
        · rw [hfc] at h
          dsimp only at h
          injection h with h1 h2
          refine Or.inr (Or.inr (Or.inl ⟨code, body, rfl, hs, rfl, h1.symm, ?_⟩))
          rw [← h2]
          simp
        · rw [hfc] at h
          dsimp only at h
          refine Or.inr (Or.inr (Or.inr ⟨code, body, fs3, rfl, hs, rfl, ?_⟩))
          have hfs3 : stat fs3 dest = FsObject.file "" := by
            rw [fileCreate_eq hfc]
            exact stat_cons_self _ _ _
          rcases hok : okChunks body with _ | _
          · -- a chunk error: the stream aborts with a network error
            have hsb := streamBody_err hok fs3 dest ""
            rcases hsb2 : streamBody fs3 dest "" body with ⟨rs, fs4⟩
            rw [hsb2] at h hsb
            dsimp only at hsb
            subst hsb
            dsimp only at h
            injection h with h1 h2
            refine ⟨?_, ?_, Or.inl ⟨rfl, h1.symm⟩⟩
            · rw [← h2]
              simp [List.append_assoc]
            · rw [← h2]
              exact ⟨rfl, rfl, rfl, rfl, rfl, rfl⟩
          · -- every chunk arrives: the file holds the accumulated body
            obtain ⟨hsb1, hsb2⟩ := streamBody_ok hok fs3 dest ""
            rcases hsb : streamBody fs3 dest "" body with ⟨rs, fs4⟩
            rw [hsb] at h hsb1 hsb2
            dsimp only at hsb1 hsb2
            subst hsb1
            dsimp only at h
            have hfs4 : stat fs4 dest = FsObject.file (accBody "" body) := by
              rw [hsb2]
              cases body with
              | nil => simpa [accBody] using hfs3
              | cons c cs => simp
            rw [hfs4] at h
            dsimp only [metadataLen] at h
            by_cases hz : (accBody "" body).length = 0
            · rw [if_pos hz] at h
              injection h with h1 h2
              refine ⟨?_, ?_, Or.inr ⟨rfl, ?_, Or.inl ⟨hz, h1.symm⟩⟩⟩
              · rw [← h2]
                simp [List.append_assoc]
              · rw [← h2]
                exact ⟨rfl, rfl, rfl, rfl, rfl, rfl⟩
              · rw [← h2]
                exact hfs4
            · rw [if_neg hz] at h
              injection h with h1 h2
              refine ⟨?_, ?_, Or.inr ⟨rfl, ?_, Or.inr ⟨Nat.pos_of_ne_zero hz, h1.symm⟩⟩⟩
              · rw [← h2]
                simp [List.append_assoc]
              · rw [← h2]
                exact ⟨rfl, rfl, rfl, rfl, rfl, rfl⟩
              · rw [← h2]
                exact hfs4
      · rw [if_neg hs] at h
        injection h with h1 h2
        refine Or.inr (Or.inl ⟨code, body, rfl, by simpa using hs, h1.symm, ?_⟩)
        rw [← h2]
        simp

theorem download_model_ok {url : String} {dest : Path} {w : World} {x : Unit} {w' : World}
    (h : download_model url dest w = (.ok x, w')) (hne : dest ≠ []) :
    w'.log = w.log ++ [Event.mkdir dest.dropLast, Event.get url, Event.writeStart dest] ∧
    sameEnv w w' := by
  rcases download_model_inv h hne with ⟨_, hr, _⟩ | ⟨fs1, hc, hcase⟩
  · cases hr
  · rcases hcase with ⟨_, hr, _⟩ | ⟨c, b, _, _, hr, _⟩ | ⟨c, b, _, _, _, hr, _⟩ |
      ⟨c, b, fs3, _, _, _, hlog, henv, _⟩
    · cases hr
    · cases hr
    · cases hr
    · exact ⟨hlog, henv⟩

theorem download_model_frame {url : String} {dest : Path} {w : World} {r : Except Err Unit}
    {w' : World} (h : download_model url dest w = (r, w')) (hne : dest ≠ []) :
    sameEnv w w' ∧
    (w'.log = w.log ++ [Event.mkdir dest.dropLast] ∨
     w'.log = w.log ++ [Event.mkdir dest.dropLast, Event.get url] ∨
     w'.log = w.log ++ [Event.mkdir dest.dropLast, Event.get url, Event.writeStart dest]) := by
  rcases download_model_inv h hne with ⟨_, _, hw⟩ | ⟨fs1, hc, hcase⟩
  · subst hw
    exact ⟨⟨rfl, rfl, rfl, rfl, rfl, rfl⟩, Or.inl rfl⟩
  · rcases hcase with ⟨_, _, hw⟩ | ⟨c, b, _, _, _, hw⟩ | ⟨c, b, _, _, _, _, hw⟩ |
      ⟨c, b, fs3, _, _, _, hlog, henv, _⟩
    · subst hw
      exact ⟨⟨rfl, rfl, rfl, rfl, rfl, rfl⟩, Or.inr (Or.inl rfl)⟩
    · subst hw
      exact ⟨⟨rfl, rfl, rfl, rfl, rfl, rfl⟩, Or.inr (Or.inl rfl)⟩
    · subst hw
      exact ⟨⟨rfl, rfl, rfl, rfl, rfl, rfl⟩, Or.inr (Or.inl rfl)⟩
    · exact ⟨henv, Or.inr (Or.inr hlog)⟩

/-- Full case inversion of `extract_tar_bz2`. -/
theorem extract_inv {a d : Path} {w : World} {r : Except Err Unit} {w' : World}
    (h : extract_tar_bz2 a d w = (r, w')) :
    (createDirAll w.fs d = none ∧ r = .error (.io "create_dir_all failed") ∧
       w' = {w with log := w.log ++ [Event.mkdir d]}) ∨
    ∃ fs1, createDirAll w.fs d = some fs1 ∧
      w' = {w with fs := applyWrites (w.tarExec a d).writes fs1,
                   log := w.log ++ [Event.mkdir d, Event.tarRun a d]} ∧
      (((w.tarExec a d).exitSuccess = true ∧ r = .ok ⟨⟩) ∨
       ((w.tarExec a d).exitSuccess = false ∧
         r = .error (.model ("Failed to extract archive: " ++ (w.tarExec a d).stderr)))) := by
  unfold extract_tar_bz2 at h
  rcases hc : createDirAll w.fs d with _ | fs1
  · rw [hc] at h
    dsimp only at h
    injection h with h1 h2
    exact Or.inl ⟨rfl, h1.symm, h2.symm⟩
  · rw [hc] at h
    dsimp only at h
    by_cases hx : (w.tarExec a d).exitSuccess = true
    · rw [if_pos hx] at h
      injection h with h1 h2
      refine Or.inr ⟨fs1, rfl, ?_, Or.inl ⟨hx, h1.symm⟩⟩
      rw [← h2]
      simp
    · rw [if_neg hx] at h
      injection h with h1 h2
      refine Or.inr ⟨fs1, rfl, ?_, Or.inr ⟨by simpa using hx, h1.symm⟩⟩
      rw [← h2]
      simp

theorem extract_ok {a d : Path} {w : World} {x : Unit} {w' : World}
    (h : extract_tar_bz2 a d w = (.ok x, w')) :
    ∃ fs1, createDirAll w.fs d = some fs1 ∧ (w.tarExec a d).exitSuccess = true ∧
      w' = {w with fs := applyWrites (w.tarExec a d).writes fs1,
                   log := w.log ++ [Event.mkdir d, Event.tarRun a d]} := by
  rcases extract_inv h with ⟨_, hr, _⟩ | ⟨fs1, hc, hw, ⟨hx, _⟩ | ⟨_, hr⟩⟩
  · cases hr
  · exact ⟨fs1, hc, hx, hw⟩
  · cases hr

theorem embMarkerPhase_ok {cd : Path} {w : World} {x : Unit} {w' : World}
    (h : embMarkerPhase cd w = (.ok x, w')) :
    ∃ y w1, download_model embedding_url (get_speaker_embedding_model_path cd) w = (.ok y, w1) ∧
      w' = {w1 with
        fs := (get_pyannote_model_path cd,
          FsObject.file (markerContent w1.now (get_pyannote_segmentation_model_path cd)
            (get_speaker_embedding_model_path cd))) :: w1.fs,
        log := w1.log ++ [Event.writeStart (get_pyannote_model_path cd)]} := by
  unfold embMarkerPhase at h
  dsimp only at h
  rcases hd : download_model embedding_url (get_speaker_embedding_model_path cd) w with ⟨rd, w1⟩
  rw [hd] at h
  cases rd with
  | error e =>
    dsimp only at h
    injection h with h1 h2
    cases h1
  | ok y =>
    dsimp only at h
    injection h with h1 h2
    exact ⟨y, w1, rfl, h2.symm⟩

theorem diar_ok {cd : Path} {w : World} {x : Unit} {w' : World}
    (h : download_diarization_model cd w = (.ok x, w')) :
    ∃ y wa z wb, download_model segmentation_url (segTempPath w) w = (.ok y, wa) ∧
      extract_tar_bz2 (segTempPath w) (get_pyannote_model_dir cd) wa = (.ok z, wb) ∧
      embMarkerPhase cd (rmArchive (segTempPath w) wb) = (.ok x, w') := by
  unfold download_diarization_model at h
  dsimp only at h
  rcases hseg : download_model segmentation_url (segTempPath w) w with ⟨rs, wa⟩
  rw [hseg] at h
  cases rs with
  | error e =>
    dsimp only at h
    injection h with h1 h2
    cases h1
  | ok y =>
    dsimp only at h
    rcases hex : extract_tar_bz2 (segTempPath w) (get_pyannote_model_dir cd) wa with ⟨re, wb⟩
    rw [hex] at h
    cases re with
    | error e =>
      dsimp only at h
      injection h with h1 h2
      cases h1
    | ok z => exact ⟨y, wa, z, wb, rfl, hex, h⟩

theorem diar_seg_err {cd : Path} {w : World} {e : Err} {w1 : World}
    (hseg : download_model segmentation_url (segTempPath w) w = (.error e, w1)) :
    download_diarization_model cd w = (.error e, w1) := by
  unfold download_diarization_model
  dsimp only
  rw [hseg]

theorem diar_extract_err {cd : Path} {w : World} {y : Unit} {w1 : World} {e : Err} {w2 : World}
    (hseg : download_model segmentation_url (segTempPath w) w = (.ok y, w1))
    (hex : extract_tar_bz2 (segTempPath w) (get_pyannote_model_dir cd) w1 = (.error e, w2)) :
    download_diarization_model cd w =
      (.error (.model ("Failed to extract segmentation model: " ++ errDisplay e)), w2) := by
  unfold download_diarization_model
  dsimp only
  rw [hseg]
  dsimp only
  rw [hex]

theorem diar_after_extract {cd : Path} {w : World} {y : Unit} {w1 : World} {z : Unit} {w2 : World}
    (hseg : download_model segmentation_url (segTempPath w) w = (.ok y, w1))
    (hex : extract_tar_bz2 (segTempPath w) (get_pyannote_model_dir cd) w1 = (.ok z, w2)) :
    download_diarization_model cd w = embMarkerPhase cd (rmArchive (segTempPath w) w2) := by
  unfold download_diarization_model
  dsimp only
  rw [hseg]
  dsimp only
  rw [hex]

theorem ensure_fast {cache_dir : Path} {model_size : ModelSize} {w : World}
    (hta : is_transcription_model_available w.fs cache_dir model_size = true)
    (hda : is_diarization_model_available w.fs cache_dir = true) :
    ensure_models_available cache_dir model_size w = (.ok true, w) := by
  unfold ensure_models_available
  rw [hta, hda]
  rfl

theorem ensure_decline {cache_dir : Path} {model_size : ModelSize} {w : World}
    (hmiss : (is_transcription_model_available w.fs cache_dir model_size &&
      is_diarization_model_available w.fs cache_dir) = false)
    (hdec : trimLower w.userInput = "n" ∨ trimLower w.userInput = "no") :
    ensure_models_available cache_dir model_size w =
      (.ok false, {w with log := w.log ++ [Event.prompt]}) := by
  unfold ensure_models_available
  rw [if_neg (by rw [hmiss]; exact Bool.false_ne_true), if_pos hdec]

theorem ensure_proceed {cache_dir : Path} {model_size : ModelSize} {w : World}
    (hmiss : (is_transcription_model_available w.fs cache_dir model_size &&
      is_diarization_model_available w.fs cache_dir) = false)
    (hdec : ¬(trimLower w.userInput = "n" ∨ trimLower w.userInput = "no")) :
    ensure_models_available cache_dir model_size w =
      acquireModels cache_dir model_size (is_transcription_model_available w.fs cache_dir model_size)
        (is_diarization_model_available w.fs cache_dir) {w with log := w.log ++ [Event.prompt]} := by
  unfold ensure_models_available
  rw [if_neg (by rw [hmiss]; exact Bool.false_ne_true), if_neg hdec]

theorem acquire_trans_err {cache_dir : Path} {model_size : ModelSize} {da : Bool} {w : World}
    {e : Err} {w1 : World}
    (hd : download_transcription_model cache_dir model_size w = (.error e, w1)) :
    acquireModels cache_dir model_size false da w = (.error e, w1) := by
  unfold acquireModels
  rw [if_neg Bool.false_ne_true, hd]

theorem acquire_ok_inv {cache_dir : Path} {model_size : ModelSize} {w : World} {r : Except Err Bool}
    {w' : World} (h : acquireModels cache_dir model_size false false w = (r, w'))
    (hr : r = .ok true) :
    ∃ y wa z, download_transcription_model cache_dir model_size w = (.ok y, wa) ∧
      download_diarization_model cache_dir wa = (.ok z, w') := by
  subst hr
  unfold acquireModels at h
  rw [if_neg Bool.false_ne_true] at h
  rcases ht : download_transcription_model cache_dir model_size w with ⟨rt, wa⟩
  rw [ht] at h
  cases rt with
  | error e =>
    dsimp only at h
    injection h with h1 h2
    cases h1
  | ok y =>
    dsimp only at h
    rw [if_neg Bool.false_ne_true] at h
    rcases hdi : download_diarization_model cache_dir wa with ⟨rd, wb⟩
    rw [hdi] at h
    cases rd with
    | error e =>
      dsimp only at h
      injection h with h1 h2
      cases h1
    | ok z =>
      dsimp only at h
      injection h with h1 h2
      exact ⟨y, wa, z, ⟨rfl, h2 ▸ hdi⟩⟩

theorem createSizeDirs_spec {whisper_dir : Path} :
    ∀ (l : List ModelSize) (fs fs' : FS), createSizeDirs fs whisper_dir l = some fs' →
      (∀ q, isDir (stat fs q) = true → isDir (stat fs' q) = true) ∧
      (∀ s ∈ l, isDir (stat fs' (pathJoin whisper_dir s.sizeName)) = true) := by
  intro l
  induction l with
  | nil =>
    intro fs fs' h
    unfold createSizeDirs at h
    injection h with h1
    subst h1
    exact ⟨fun q hq => hq, fun s hs => absurd hs (List.not_mem_nil s)⟩
  | cons a rest ih =>
    intro fs fs' h
    unfold createSizeDirs at h
    rcases hc : createDirAll fs (pathJoin whisper_dir a.sizeName) with _ | fs1
    · rw [hc] at h
      cases h
    · rw [hc] at h
      dsimp only at h
      obtain ⟨ihPres, ihMem⟩ := ih fs1 fs' h
      refine ⟨fun q hq => ihPres q (createDirAll_preserves_isDir hc hq), ?_⟩
      intro s hs
      rcases List.mem_cons.mp hs with rfl | hs'
      · exact ihPres _ (createDirAll_isDir hc)
      · exact ihMem s hs'

theorem create_directory_structure_spec {cache_dir : Path} {fs fs' : FS}
    (h : create_directory_structure cache_dir fs = some fs') :
    isDir (stat fs' cache_dir) = true ∧
    isDir (stat fs' (pathJoin cache_dir "whisper")) = true ∧
    (∀ s : ModelSize,
      isDir (stat fs' (pathJoin (pathJoin cache_dir "whisper") s.sizeName)) = true) ∧
    isDir (stat fs' (pathJoin cache_dir "pyannote")) = true := by
  unfold create_directory_structure at h
  rcases h1 : createDirAll fs cache_dir with _ | fsA
  · rw [h1] at h; cases h
  · rw [h1] at h
    dsimp only at h
    rcases h2 : createDirAll fsA (pathJoin cache_dir "whisper") with _ | fsB
    · rw [h2] at h; cases h
    · rw [h2] at h
      dsimp only at h
      rcases h3 : createSizeDirs fsB (pathJoin cache_dir "whisper") allSizes with _ | fsC
      · rw [h3] at h; cases h
      · rw [h3] at h
        dsimp only at h
        rcases h4 : createDirAll fsC (pathJoin cache_dir "pyannote") with _ | fsD
        · rw [h4] at h; cases h
        · rw [h4] at h
          dsimp only at h
          injection h with h5
          subst h5
          obtain ⟨pres3, mem3⟩ := createSizeDirs_spec allSizes fsB fsC h3
          have hroot : isDir (stat fsC cache_dir) = true :=
            pres3 _ (createDirAll_preserves_isDir h2 (createDirAll_isDir h1))
          have hwh : isDir (stat fsC (pathJoin cache_dir "whisper")) = true :=
            pres3 _ (createDirAll_isDir h2)
          refine ⟨createDirAll_preserves_isDir h4 hroot,
        createDirAll_preserves_isDir h4 hwh, ?_, createDirAll_isDir h4⟩
          intro s
          refine createDirAll_preserves_isDir h4 (mem3 s ?_)
          cases s <;> simp [allSizes]

theorem fileAvailable_congr {fs1 fs2 : FS} {p : Path} (h : stat fs1 p = stat fs2 p) :
    fileAvailable fs1 p = fileAvailable fs2 p := by
  unfold fileAvailable path_exists meta_len_pos metadata_len
  rw [h]

theorem sizeName_inj : ∀ a b : ModelSize, a.sizeName = b.sizeName → a = b := by
  intro a b h
  cases a <;> cases b <;> first | rfl | exact absurd h (by decide)

/-- Claim C1: idempotent fast path.  When both availability checks return
true, `ensure_models_available` returns `Ok(true)` with the world unchanged:
the event log is untouched (so no GET, no tar run, no prompt, no file write
and no removal happened) and the filesystem is untouched. -/
theorem c1_fast_path (cache_dir : Path) (model_size : ModelSize) (w : World)
    (hta : is_transcription_model_available w.fs cache_dir model_size = true)
    (hda : is_diarization_model_available w.fs cache_dir = true) :
    ensure_models_available cache_dir model_size w = (Except.ok true, w) :=
  ensure_fast hta hda

def c1World : World :=
  { fs := [(["r", "whisper", "medium", "ggml-medium.bin"], FsObject.file "W"),
           (["r", "pyannote", "sherpa-onnx-pyannote-segmentation-3-0", "model.onnx"],
             FsObject.file "S"),
           (["r", "pyannote", "3dspeaker_speech_eres2net_base_sv_zh-cn_3dspeaker_16k.onnx"],
             FsObject.file "E")],
    net := fun _ => NetResp.transportErr,
    tarExec := fun _ _ => ⟨false, "", []⟩,
    rmFails := fun _ => false,
    userInput := "",
    tmpDir := ["t"],
    now := "T",
    log := [] }

/-- Witness for C1: a concrete cache holding all three model files. -/
theorem c1_witness :
    ensure_models_available ["r"] ModelSize.medium c1World = (Except.ok true, c1World) :=
  c1_fast_path ["r"] ModelSize.medium c1World (by decide) (by decide)

/-- Counterexample to C2 as stated: the claim says the check returns true
only if the path resolves to a regular file, but the code never tests the
file type — a directory at the model path whose reported metadata length is
positive (4096 is what ext4 reports) makes the check return true. -/
theorem c2_counterexample :
    is_transcription_model_available
      [(["r", "whisper", "tiny", "ggml-tiny.bin"], FsObject.dir 4096)] ["r"] ModelSize.tiny
        = true ∧
    stat [(["r", "whisper", "tiny", "ggml-tiny.bin"], FsObject.dir 4096)]
      (get_whisper_model_path ["r"] ModelSize.tiny) = FsObject.dir 4096 ∧
    isFile (FsObject.dir 4096) = false := by
  exact ⟨by decide, by decide, rfl⟩

/-- Claim C2 (amended): the availability check returns true iff the probe
reports the path as existing with positive metadata length — false for a
non-existent path, false for a zero-byte file, true for a non-empty regular
file, and any probing error yields false (fails closed); the file-type is
not inspected.  The last conjunct ties the generic predicate to the source
checker. -/
theorem c2_availability (fs : FS) (p : Path) :
    (stat fs p = FsObject.absent → fileAvailable fs p = false) ∧
    (stat fs p = FsObject.file "" → fileAvailable fs p = false) ∧
    (stat fs p = FsObject.ioErr → fileAvailable fs p = false) ∧
    (∀ c, stat fs p = FsObject.file c → fileAvailable fs p = decide (0 < c.length)) ∧
    (fileAvailable fs p = true ↔
      path_exists fs p = true ∧ ∃ n, metadata_len fs p = some n ∧ 0 < n) ∧
    (∀ cache_dir size, is_transcription_model_available fs cache_dir size =
        fileAvailable fs (get_whisper_model_path cache_dir size)) := by
  refine ⟨?_, ?_, ?_, ?_, ?_, fun cache_dir size => rfl⟩
  · intro h
    simp [fileAvailable, path_exists, meta_len_pos, metadata_len, h, objExists]
  · intro h
    simp [fileAvailable, path_exists, meta_len_pos, metadata_len, h, objExists, metadataLen]
  · intro h
    simp [fileAvailable, path_exists, meta_len_pos, metadata_len, h, objExists]
  · intro c h
    simp [fileAvailable, path_exists, meta_len_pos, metadata_len, h, objExists, metadataLen]
  · cases hstat : stat fs p <;>
      simp [fileAvailable, path_exists, meta_len_pos, metadata_len, hstat, objExists, metadataLen]

/-- Witness for C2: the theorem applied at a concrete empty filesystem. -/
theorem c2_witness : fileAvailable [] ["a"] = false :=
  (c2_availability [] ["a"]).1 rfl

/-- Claim C5: decline semantics.  With models missing, a trimmed lowercased
input of n or no makes the orchestrator return `Ok(false)` with only the
prompt recorded — same filesystem, no downloads; any other input proceeds to
the acquisition block. -/
theorem c5_decline_semantics (cache_dir : Path) (model_size : ModelSize) (w : World)
    (hmiss : (is_transcription_model_available w.fs cache_dir model_size &&
      is_diarization_model_available w.fs cache_dir) = false) :
    ((trimLower w.userInput = "n" ∨ trimLower w.userInput = "no") →
       ensure_models_available cache_dir model_size w =
         (Except.ok false, {w with log := w.log ++ [Event.prompt]})) ∧
    (¬(trimLower w.userInput = "n" ∨ trimLower w.userInput = "no") →
       ensure_models_available cache_dir model_size w =
         acquireModels cache_dir model_size
           (is_transcription_model_available w.fs cache_dir model_size)
           (is_diarization_model_available w.fs cache_dir)
           {w with log := w.log ++ [Event.prompt]}) :=
  ⟨fun hdec => ensure_decline hmiss hdec, fun hdec => ensure_proceed hmiss hdec⟩

def c5World : World :=
  { fs := [],
    net := fun _ => NetResp.transportErr,
    tarExec := fun _ _ => ⟨false, "", []⟩,
    rmFails := fun _ => false,
    userInput := " No ",
    tmpDir := ["t"],
    now := "T",
    log := [] }

/-- Witness for C5: the operator answers a padded mixed-case No. -/
theorem c5_witness :
    ensure_models_available ["r"] ModelSize.tiny c5World =
      (Except.ok false, {c5World with log := c5World.log ++ [Event.prompt]}) :=
  (c5_decline_semantics ["r"] ModelSize.tiny c5World (by decide)).1 (by decide)

/-- Claim C6: diarization availability is exactly the conjunction of the
availability predicate at the segmentation path and at the embedding path. -/
theorem c6_diarization_conjunction (fs : FS) (cache_dir : Path) :
    is_diarization_model_available fs cache_dir =
      (fileAvailable fs (get_pyannote_segmentation_model_path cache_dir) &&
       fileAvailable fs (get_speaker_embedding_model_path cache_dir)) := by
  unfold is_diarization_model_available fileAvailable
  dsimp only
  generalize path_exists fs (get_pyannote_segmentation_model_path cache_dir) = a
  generalize path_exists fs (get_speaker_embedding_model_path cache_dir) = b
  generalize meta_len_pos fs (get_pyannote_segmentation_model_path cache_dir) = c
  generalize meta_len_pos fs (get_speaker_embedding_model_path cache_dir) = d
  cases a <;> cases b <;> cases c <;> cases d <;> rfl

/-- Claim C7: exact canonical layout.  The four path functions yield exactly
the documented paths under the cache root (they are pure Lean functions, so
stability across calls and absence of I/O are inherent), and distinct model
specs never share a path. -/
theorem c7_cache_layout (cache_dir : Path) :
    (∀ size : ModelSize, get_whisper_model_path cache_dir size =
        cache_dir ++ ["whisper", size.sizeName, "ggml-" ++ size.sizeName ++ ".bin"]) ∧
    get_pyannote_segmentation_model_path cache_dir =
      cache_dir ++ ["pyannote", "sherpa-onnx-pyannote-segmentation-3-0", "model.onnx"] ∧
    get_speaker_embedding_model_path cache_dir =
      cache_dir ++ ["pyannote", "3dspeaker_speech_eres2net_base_sv_zh-cn_3dspeaker_16k.onnx"] ∧
    get_pyannote_model_path cache_dir = cache_dir ++ ["pyannote", "setup_complete.txt"] ∧
    (∀ s1 s2 : ModelSpec, pathOfSpec cache_dir s1 = pathOfSpec cache_dir s2 → s1 = s2) := by
  refine ⟨fun size => ?_, ?_, ?_, ?_, ?_⟩
  · simp [get_whisper_model_path, pathJoin]
  · simp [get_pyannote_segmentation_model_path, get_pyannote_model_dir, pathJoin]
  · simp [get_speaker_embedding_model_path, get_pyannote_model_dir, pathJoin]
  · simp [get_pyannote_model_path, get_pyannote_model_dir, pathJoin]
  · intro s1 s2 h
    cases s1 <;> cases s2 <;>
      simp only [pathOfSpec, get_whisper_model_path, get_pyannote_segmentation_model_path,
        get_speaker_embedding_model_path, get_pyannote_model_dir, pathJoin,
        List.append_assoc, List.singleton_append, List.cons_append, List.nil_append] at h <;>
      (try rfl) <;>
      (have h2 := List.append_cancel_left h) <;>
      first
        | (injection h2 with hh ht
           injection ht with hs ht2
           exact congrArg ModelSpec.transcription (sizeName_inj _ _ hs))
        | (injection h2 with hh ht
           exact absurd hh (by decide))
        | (injection h2 with hh ht
           injection ht with hh2 ht2
           exact absurd hh2 (by decide))

/-- Witness for C7: the layout applied at a concrete root, and injectivity
applied at a concrete pair. -/
theorem c7_witness :
    get_whisper_model_path ["r"] ModelSize.base = ["r", "whisper", "base", "ggml-base.bin"] ∧
    ModelSpec.transcription ModelSize.tiny = ModelSpec.transcription ModelSize.tiny :=
  ⟨by simpa [ModelSize.sizeName] using (c7_cache_layout ["r"]).1 ModelSize.base,
   (c7_cache_layout ["r"]).2.2.2.2 (ModelSpec.transcription ModelSize.tiny)
     (ModelSpec.transcription ModelSize.tiny) rfl⟩

/-- Claim C8: initialization invariant.  When `ModelManager::new` succeeds,
the resolved cache root, every whisper size subdirectory and the pyannote
subdirectory exist as directories, whatever the filesystem held before. -/
theorem c8_init_structure (base : Path) (fs : FS) (cache_dir : Path) (fs' : FS)
    (h : ModelManager_new (some base) fs = .ok (cache_dir, fs')) :
    isDir (stat fs' cache_dir) = true ∧
    (∀ size : ModelSize,
      isDir (stat fs' (cache_dir ++ ["whisper", size.sizeName])) = true) ∧
    isDir (stat fs' (cache_dir ++ ["pyannote"])) = true := by
  unfold ModelManager_new at h
  dsimp only at h
  rcases hc : create_directory_structure (pathJoin (pathJoin base "audio-transcribe") "models")
      fs with _ | fs1
  · rw [hc] at h
    cases h
  · rw [hc] at h
    dsimp only at h
    injection h with h1
    injection h1 with hcd hfs
    subst hcd
    subst hfs
    obtain ⟨hroot, hwh, hsizes, hpy⟩ := create_directory_structure_spec hc
    refine ⟨hroot, ?_, ?_⟩
    · intro size
      have := hsizes size
      simpa [pathJoin] using this
    · simpa [pathJoin] using hpy

/-- Witness for C8: a concrete platform cache directory and empty filesystem. -/
theorem c8_witness :
    ∃ cache_dir fs', ModelManager_new (some ["h"]) [] = Except.ok (cache_dir, fs') ∧
      isDir (stat fs' (cache_dir ++ ["pyannote"])) = true :=
  ⟨_, _, rfl, (c8_init_structure ["h"] [] _ _ rfl).2.2⟩

/-- Claim C10: no destructive write before status verification.  When the
GET fails in transport or returns a non-success status, the object at the
destination is exactly what it was before the call (a pre-existing file is
unchanged byte for byte, no new file appears), every other path is unchanged
except that missing parent directories may now be directories, and no file
was opened for writing. -/
theorem c10_no_write_before_status (url : String) (dest : Path) (w : World)
    (hfail : w.net url = NetResp.transportErr ∨
      ∃ code body, w.net url = NetResp.status code body ∧ isSuccessStatus code = false) :
    stat (download_model url dest w).2.fs dest = stat w.fs dest ∧
    (∀ q, stat (download_model url dest w).2.fs q = stat w.fs q ∨
       (stat w.fs q = FsObject.absent ∧
        stat (download_model url dest w).2.fs q = FsObject.dir dirSz ∧
        q ∈ initsOf dest.dropLast)) ∧
    (∀ p, Event.writeStart p ∈ (download_model url dest w).2.log →
       Event.writeStart p ∈ w.log) := by
  by_cases hne : dest = []
  · subst hne
    unfold download_model
    rw [ensureParent_nil]
    dsimp only
    rcases hfail with hn | ⟨code, body, hn, hs⟩
    · rw [hn]
      dsimp only
      exact ⟨rfl, fun q => Or.inl rfl, fun p hp => by simpa using hp⟩
    · rw [hn]
      dsimp only
      rw [if_neg (by rw [hs]; exact Bool.false_ne_true)]
      exact ⟨rfl, fun q => Or.inl rfl, fun p hp => by simpa using hp⟩
  · rcases hdl : download_model url dest w with ⟨r, w'⟩
    have hgoal2 : ∀ fs1, createDirAll w.fs dest.dropLast = some fs1 →
        ∀ q, stat fs1 q = stat w.fs q ∨
          (stat w.fs q = FsObject.absent ∧ stat fs1 q = FsObject.dir dirSz ∧
           q ∈ initsOf dest.dropLast) := by
      intro fs1 hc q
      by_cases hch : stat fs1 q = stat w.fs q
      · exact Or.inl hch
      · exact Or.inr (createDirAll_absent_of_changed hc hch)
    rcases download_model_inv hdl hne with ⟨hc, hr, hw⟩ | ⟨fs1, hc, hcase⟩
    · subst hw
      exact ⟨rfl, fun q => Or.inl rfl, fun p hp => by simpa using hp⟩
    · rcases hcase with ⟨hn, hr, hw⟩ | ⟨code, body, hn, hs, hr, hw⟩ |
        ⟨code, body, hn, hs, hfc, hr, hw⟩ | ⟨code, body, fs3, hn, hs, hfc, hlog, henv, hrest⟩
      · subst hw
        exact ⟨stat_after_parent hne hc, hgoal2 fs1 hc, fun p hp => by simpa using hp⟩
      · subst hw
        exact ⟨stat_after_parent hne hc, hgoal2 fs1 hc, fun p hp => by simpa using hp⟩
      · subst hw
        exact ⟨stat_after_parent hne hc, hgoal2 fs1 hc, fun p hp => by simpa using hp⟩
      · exfalso
        rcases hfail with hn2 | ⟨code2, body2, hn2, hs2⟩
        · rw [hn] at hn2
          cases hn2
        · rw [hn] at hn2
          injection hn2 with hcode hbody
          subst hcode
          rw [hs] at hs2
          cases hs2

def c10World : World :=
  { fs := [(["d", "f"], FsObject.file "data")],
    net := fun _ => NetResp.status 404 [],
    tarExec := fun _ _ => ⟨false, "", []⟩,
    rmFails := fun _ => false,
    userInput := "",
    tmpDir := ["t"],
    now := "T",
    log := [] }

/-- Witness for C10: a 404 response leaves the pre-existing file untouched. -/
theorem c10_witness :
    stat (download_model "u" ["d", "f"] c10World).2.fs ["d", "f"] =
      stat c10World.fs ["d", "f"] :=
  (c10_no_write_before_status "u" ["d", "f"] c10World
    (Or.inr ⟨404, [], rfl, rfl⟩)).1

def c4BadWorld : World :=
  { fs := [(["d", "f"], FsObject.file "data")],
    net := fun _ => NetResp.status 404 [],
    tarExec := fun _ _ => ⟨false, "", []⟩,
    rmFails := fun _ => false,
    userInput := "",
    tmpDir := ["t"],
    now := "T",
    log := [] }

/-- Counterexample to C4 as stated: for a 404 response the claim asserts that
afterwards no file exists at the destination except possibly an empty one; but
when a non-empty file already sat at the destination, the download fails with
the status-carrying Network error and that non-empty file is still there. -/
theorem c4_counterexample :
    (download_model "u" ["d", "f"] c4BadWorld).1 = Except.error (Err.network (some 404)) ∧
    stat (download_model "u" ["d", "f"] c4BadWorld).2.fs ["d", "f"] = FsObject.file "data" ∧
    isFile (FsObject.file "data") = true ∧ "data".length ≠ 0 :=
  ⟨rfl, rfl, rfl, by decide⟩

/-- Claim C4 (amended): the download contract.  The parent directory is
ensured first and a failure there aborts with an Io error before any GET; a
transport error or a non-success status fails with the Network error carrying
the status while leaving the destination object exactly as it was (in
particular, if nothing or only an empty file was there, the availability
check still reports unavailable afterwards); on a success status the body is
streamed into the destination file and the result is stat-ed: a zero-length
artifact is rejected with the empty-artifact Model error, otherwise the call
succeeds. -/
theorem c4_download_contract (url : String) (dest : Path) (w : World) (hne : dest ≠ []) :
    (createDirAll w.fs dest.dropLast = none →
       download_model url dest w =
         (.error (.io "create_dir_all failed"),
          {w with log := w.log ++ [Event.mkdir dest.dropLast]})) ∧
    (∀ fs1, createDirAll w.fs dest.dropLast = some fs1 →
       (w.net url = NetResp.transportErr →
          download_model url dest w = (.error (.network none),
            {w with fs := fs1, log := w.log ++ [Event.mkdir dest.dropLast, Event.get url]}) ∧
          stat fs1 dest = stat w.fs dest) ∧
       (∀ code body, w.net url = NetResp.status code body → isSuccessStatus code = false →
          download_model url dest w = (.error (.network (some code)),
            {w with fs := fs1, log := w.log ++ [Event.mkdir dest.dropLast, Event.get url]}) ∧
          stat fs1 dest = stat w.fs dest ∧
          fileAvailable fs1 dest = fileAvailable w.fs dest) ∧
       (∀ code body, w.net url = NetResp.status code body → isSuccessStatus code = true →
          okChunks body = true → ∀ fs3, fileCreate fs1 dest = some fs3 →
          (download_model url dest w).1 =
            (if (accBody "" body).length = 0
             then .error (.model "Downloaded model file is empty") else .ok ⟨⟩) ∧
          stat (download_model url dest w).2.fs dest = FsObject.file (accBody "" body) ∧
          (download_model url dest w).2.log =
            w.log ++ [Event.mkdir dest.dropLast, Event.get url, Event.writeStart dest])) := by
  refine ⟨?_, ?_⟩
  · intro hc
    unfold download_model
    rw [ensureParent_none hne w hc]
  · intro fs1 hc
    refine ⟨?_, ?_, ?_⟩
    · intro hn
      refine ⟨?_, stat_after_parent hne hc⟩
      unfold download_model
      rw [ensureParent_some hne w hc]
      dsimp only
      rw [hn]
      dsimp only
      simp
    · intro code body hn hs
      refine ⟨?_, stat_after_parent hne hc, fileAvailable_congr (stat_after_parent hne hc)⟩
      unfold download_model
      rw [ensureParent_some hne w hc]
      dsimp only
      rw [hn]
      dsimp only
      rw [if_neg (by rw [hs]; exact Bool.false_ne_true)]
      simp
    · intro code body hn hs hok fs3 hfc
      rcases hdl : download_model url dest w with ⟨r, w'⟩
      dsimp only
      rcases download_model_inv hdl hne with ⟨hcA, _, _⟩ | ⟨fs1b, hcb, hcase⟩
      · rw [hc] at hcA
        cases hcA
      · rw [hc] at hcb
        injection hcb with hfs1
        subst hfs1
        rcases hcase with ⟨hn2, _, _⟩ | ⟨c2, b2, hn2, hs2, _, _⟩ | ⟨c2, b2, hn2, hs2, hfc2, _, _⟩ |
          ⟨c2, b2, fs3b, hn2, hs2, hfc2, hlog, henv, hrest⟩
        · rw [hn] at hn2
          cases hn2
        · rw [hn] at hn2
          injection hn2 with hcc hbb
          subst hcc
          rw [hs] at hs2
          cases hs2
        · rw [hn] at hn2
          injection hn2 with hcc hbb
          subst hbb
          rw [hfc] at hfc2
          cases hfc2
        · rw [hn] at hn2
          injection hn2 with hcc hbb
          subst hcc
          subst hbb
          rcases hrest with ⟨hokf, _⟩ | ⟨_, hstat, hr⟩
          · rw [hok] at hokf
            cases hokf
          · refine ⟨?_, hstat, hlog⟩
            rcases hr with ⟨hz, hr⟩ | ⟨hpos, hr⟩
            · rw [hr, if_pos hz]
            · rw [hr, if_neg (Nat.pos_iff_ne_zero.mp hpos)]

def c4OkWorld : World :=
  { fs := [],
    net := fun _ => NetResp.status 200 [some "hi"],
    tarExec := fun _ _ => ⟨false, "", []⟩,
    rmFails := fun _ => false,
    userInput := "",
    tmpDir := ["t"],
    now := "T",
    log := [] }

/-- Witness for C4: a succeeding two-byte download at a concrete world. -/
theorem c4_witness :
    (download_model "u" ["d", "x"] c4OkWorld).1 = Except.ok ⟨⟩ ∧
    stat (download_model "u" ["d", "x"] c4OkWorld).2.fs ["d", "x"] = FsObject.file "hi" := by
  have h := ((c4_download_contract "u" ["d", "x"] c4OkWorld (by decide)).2 _ rfl).2.2
    200 [some "hi"] rfl rfl rfl _ rfl
  exact ⟨by rw [h.1]; rfl, by rw [h.2.1]; exact rfl⟩

/-- Claim C9: extractor contract and archive cleanup.  `extract_tar_bz2`
creates the destination directory (failing first when it cannot), runs the
external tool against that destination, fails with the stderr-carrying Model
error on a non-zero exit and succeeds otherwise; and after a successful
extraction the orchestrator removes the scratch archive best-effort — the
removal is logged and the acquisition continues identically whether or not
the removal itself failed. -/
theorem c9_extract_contract (archive_path extract_to cache_dir : Path) (w : World) :
    (createDirAll w.fs extract_to = none →
       extract_tar_bz2 archive_path extract_to w =
         (.error (.io "create_dir_all failed"),
          {w with log := w.log ++ [Event.mkdir extract_to]})) ∧
    (∀ fs1, createDirAll w.fs extract_to = some fs1 →
       isDir (stat fs1 extract_to) = true ∧
       ((w.tarExec archive_path extract_to).exitSuccess = false →
          extract_tar_bz2 archive_path extract_to w =
            (.error (.model ("Failed to extract archive: " ++
               (w.tarExec archive_path extract_to).stderr)),
             {w with fs := applyWrites (w.tarExec archive_path extract_to).writes fs1,
                     log := w.log ++
                       [Event.mkdir extract_to, Event.tarRun archive_path extract_to]})) ∧
       ((w.tarExec archive_path extract_to).exitSuccess = true →
          extract_tar_bz2 archive_path extract_to w =
            (.ok ⟨⟩,
             {w with fs := applyWrites (w.tarExec archive_path extract_to).writes fs1,
                     log := w.log ++
                       [Event.mkdir extract_to, Event.tarRun archive_path extract_to]}))) ∧
    (∀ y w1 z w2, download_model segmentation_url (segTempPath w) w = (.ok y, w1) →
       extract_tar_bz2 (segTempPath w) (get_pyannote_model_dir cache_dir) w1 = (.ok z, w2) →
       download_diarization_model cache_dir w =
         embMarkerPhase cache_dir (rmArchive (segTempPath w) w2) ∧
       (w2.rmFails (segTempPath w) = false →
          stat (rmArchive (segTempPath w) w2).fs (segTempPath w) = FsObject.absent) ∧
       (w2.rmFails (segTempPath w) = true →
          (rmArchive (segTempPath w) w2).fs = w2.fs) ∧
       (rmArchive (segTempPath w) w2).log = w2.log ++ [Event.rmFile (segTempPath w)]) := by
  refine ⟨?_, ?_, ?_⟩
  · intro hc
    unfold extract_tar_bz2
    rw [hc]
  · intro fs1 hc
    refine ⟨createDirAll_isDir hc, ?_, ?_⟩
    · intro hx
      unfold extract_tar_bz2
      rw [hc]
      dsimp only
      rw [if_neg (by rw [hx]; exact Bool.false_ne_true)]
      simp
    · intro hx
      unfold extract_tar_bz2
      rw [hc]
      dsimp only
      rw [if_pos hx]
      simp
  · intro y w1 z w2 hseg hex
    refine ⟨diar_after_extract hseg hex, ?_, ?_, rfl⟩
    · intro hrm
      unfold rmArchive
      dsimp only
      rw [hrm]
      rw [if_neg Bool.false_ne_true]
      exact stat_cons_self _ _ _
    · intro hrm
      unfold rmArchive
      dsimp only
      rw [hrm, if_pos rfl]

def c9World : World :=
  { fs := [],
    net := fun _ => NetResp.transportErr,
    tarExec := fun _ _ => ⟨false, "boom", []⟩,
    rmFails := fun _ => false,
    userInput := "",
    tmpDir := ["t"],
    now := "T",
    log := [] }

/-- Witness for C9: a failing tar run at a concrete world surfaces its
stderr in the error. -/
theorem c9_witness :
    ∃ fs1, createDirAll c9World.fs ["d"] = some fs1 ∧
      extract_tar_bz2 ["t", "a.tar.bz2"] ["d"] c9World =
        (.error (.model ("Failed to extract archive: " ++
           (c9World.tarExec ["t", "a.tar.bz2"] ["d"]).stderr)),
         {c9World with fs := applyWrites (c9World.tarExec ["t", "a.tar.bz2"] ["d"]).writes fs1,
                       log := c9World.log ++
                         [Event.mkdir ["d"], Event.tarRun ["t", "a.tar.bz2"] ["d"]]}) :=
  ⟨_, rfl, ((c9_extract_contract ["t", "a.tar.bz2"] ["d"] ["r"] c9World).2.1 _ rfl).2.1 rfl⟩

theorem whisper_ne_seg (ms : ModelSize) : whisper_url ms ≠ segmentation_url := by
  cases ms <;> decide

theorem whisper_ne_emb (ms : ModelSize) : whisper_url ms ≠ embedding_url := by
  cases ms <;> decide

theorem emb_ne_seg : embedding_url ≠ segmentation_url := by decide

theorem snoc_ne_snoc {l1 l2 : Path} {a b : String} (hab : a ≠ b) : l1 ++ [a] ≠ l2 ++ [b] := by
  intro h
  have h2 := congrArg List.getLast? h
  simp at h2
  exact hab h2

theorem marker_ne_tmp (cache_dir : Path) (w : World) :
    get_pyannote_model_path cache_dir ≠ segTempPath w := by
  unfold get_pyannote_model_path get_pyannote_model_dir segTempPath pathJoin
  exact snoc_ne_snoc (by decide)

theorem whisper_path_dropLast (cache_dir : Path) (ms : ModelSize) :
    (get_whisper_model_path cache_dir ms).dropLast = pathJoin (pathJoin cache_dir "whisper") ms.sizeName := by
  unfold get_whisper_model_path pathJoin
  exact List.dropLast_concat

theorem segTemp_dropLast (w : World) : (segTempPath w).dropLast = w.tmpDir := by
  unfold segTempPath pathJoin
  exact List.dropLast_concat

theorem emb_path_dropLast (cache_dir : Path) :
    (get_speaker_embedding_model_path cache_dir).dropLast = get_pyannote_model_dir cache_dir := by
  unfold get_speaker_embedding_model_path get_pyannote_model_dir pathJoin
  exact List.dropLast_concat

theorem whisper_path_ne_nil (cache_dir : Path) (ms : ModelSize) :
    get_whisper_model_path cache_dir ms ≠ [] := by
  simp [get_whisper_model_path, pathJoin]

theorem segTemp_ne_nil (w : World) : segTempPath w ≠ [] := by
  simp [segTempPath, pathJoin]

theorem emb_path_ne_nil (cache_dir : Path) : get_speaker_embedding_model_path cache_dir ≠ [] := by
  simp [get_speaker_embedding_model_path, get_pyannote_model_dir, pathJoin]

/-- Claim C3: acquisition ordering and abort on first failure.  With both
artifacts missing and the operator not declining: (1) the transcription
download runs first and its failure aborts the orchestration before any
diarization GET; (2) a fully successful run performs exactly, in order, the
prompt, the transcription download, the segmentation-archive download to the
scratch path, the extraction into the pyannote directory, the scratch-archive
removal, the embedding download, and the marker write — the marker holding
the timestamp and both resolved model paths; (3) a failing segmentation
download aborts diarization with no embedding GET and no marker write; and
(4) a failing extraction does the same, surfacing the wrapped ExtractError. -/
theorem c3_acquisition_order (cache_dir : Path) (model_size : ModelSize) (w : World)
    (hta : is_transcription_model_available w.fs cache_dir model_size = false)
    (hda : is_diarization_model_available w.fs cache_dir = false)
    (hno : ¬(trimLower w.userInput = "n" ∨ trimLower w.userInput = "no")) :
    (∀ e w1, download_transcription_model cache_dir model_size
        {w with log := w.log ++ [Event.prompt]} = (.error e, w1) →
      ensure_models_available cache_dir model_size w = (.error e, w1) ∧
      (Event.get segmentation_url ∈ w1.log ↔ Event.get segmentation_url ∈ w.log) ∧
      (Event.get embedding_url ∈ w1.log ↔ Event.get embedding_url ∈ w.log)) ∧
    (∀ w', ensure_models_available cache_dir model_size w = (.ok true, w') →
      w'.log = w.log ++ [Event.prompt,
        Event.mkdir (pathJoin (pathJoin cache_dir "whisper") model_size.sizeName),
        Event.get (whisper_url model_size),
        Event.writeStart (get_whisper_model_path cache_dir model_size),
        Event.mkdir w.tmpDir, Event.get segmentation_url, Event.writeStart (segTempPath w),
        Event.mkdir (get_pyannote_model_dir cache_dir),
        Event.tarRun (segTempPath w) (get_pyannote_model_dir cache_dir),
        Event.rmFile (segTempPath w),
        Event.mkdir (get_pyannote_model_dir cache_dir), Event.get embedding_url,
        Event.writeStart (get_speaker_embedding_model_path cache_dir),
        Event.writeStart (get_pyannote_model_path cache_dir)] ∧
      stat w'.fs (get_pyannote_model_path cache_dir) =
        FsObject.file (markerContent w.now (get_pyannote_segmentation_model_path cache_dir)
          (get_speaker_embedding_model_path cache_dir))) ∧
    (∀ e w1, download_model segmentation_url (segTempPath w) w = (.error e, w1) →
      download_diarization_model cache_dir w = (.error e, w1) ∧
      (Event.get embedding_url ∈ w1.log ↔ Event.get embedding_url ∈ w.log) ∧
      (Event.writeStart (get_pyannote_model_path cache_dir) ∈ w1.log ↔
        Event.writeStart (get_pyannote_model_path cache_dir) ∈ w.log)) ∧
    (∀ y w1 e w2, download_model segmentation_url (segTempPath w) w = (.ok y, w1) →
      extract_tar_bz2 (segTempPath w) (get_pyannote_model_dir cache_dir) w1 = (.error e, w2) →
      download_diarization_model cache_dir w =
        (.error (.model ("Failed to extract segmentation model: " ++ errDisplay e)), w2) ∧
      (Event.get embedding_url ∈ w2.log ↔ Event.get embedding_url ∈ w.log) ∧
      (Event.writeStart (get_pyannote_model_path cache_dir) ∈ w2.log ↔
        Event.writeStart (get_pyannote_model_path cache_dir) ∈ w.log)) := by
  have hmiss : (is_transcription_model_available w.fs cache_dir model_size &&
      is_diarization_model_available w.fs cache_dir) = false := by
    rw [hta]
    rfl
  have hens := ensure_proceed hmiss hno
  rw [hta, hda] at hens
  refine ⟨?_, ?_, ?_, ?_⟩
  · -- (1) transcription first, failure aborts before diarization
    intro e w1 hd
    have hd' : download_model (whisper_url model_size)
        (get_whisper_model_path cache_dir model_size)
        {w with log := w.log ++ [Event.prompt]} = (.error e, w1) := hd
    obtain ⟨henv, hlog⟩ := download_model_frame hd' (whisper_path_ne_nil cache_dir model_size)
    have hmain : ensure_models_available cache_dir model_size w = (.error e, w1) := by
      rw [hens]
      exact acquire_trans_err hd
    refine ⟨hmain, ?_, ?_⟩ <;>
      rcases hlog with hlog | hlog | hlog <;>
        simp [hlog, whisper_ne_seg model_size, Ne.symm (whisper_ne_seg model_size),
          whisper_ne_emb model_size, Ne.symm (whisper_ne_emb model_size)]
  · -- (2) the full success trace (a)-(e)
    intro w' hsucc
    rw [hens] at hsucc
    obtain ⟨y, wa, z, ht, hdi⟩ := acquire_ok_inv hsucc rfl
    have ht' : download_model (whisper_url model_size)
        (get_whisper_model_path cache_dir model_size)
        {w with log := w.log ++ [Event.prompt]} = (.ok y, wa) := ht
    obtain ⟨hlogA, henvA⟩ := download_model_ok ht' (whisper_path_ne_nil cache_dir model_size)
    obtain ⟨y2, wb, z2, wc, hseg, hex, hemb⟩ := diar_ok hdi
    have htmp_wa : segTempPath wa = segTempPath w := by
      unfold segTempPath
      rw [henvA.2.2.2.2.1]
    rw [htmp_wa] at hseg hex hemb
    obtain ⟨hlogB, henvB⟩ := download_model_ok hseg (segTemp_ne_nil w)
    obtain ⟨fsE, hcE, hxE, hwc⟩ := extract_ok hex
    subst hwc
    obtain ⟨y3, w4, hembdl, hw'⟩ := embMarkerPhase_ok hemb
    obtain ⟨hlogD, henvD⟩ := download_model_ok hembdl (emb_path_ne_nil cache_dir)
    subst hw'
    have hnow : w4.now = w.now := by
      rw [henvD.2.2.2.2.2]
      dsimp only [rmArchive]
      rw [henvB.2.2.2.2.2, henvA.2.2.2.2.2]
    constructor
    · show w4.log ++ [Event.writeStart (get_pyannote_model_path cache_dir)] = _
      rw [hlogD]
      dsimp only [rmArchive]
      rw [hlogB, hlogA]
      rw [whisper_path_dropLast, segTemp_dropLast, emb_path_dropLast]
      show ((((((w.log ++ [Event.prompt]) ++ _) ++ _) ++ _) ++ _) ++ _) ++ _ = _
      simp [List.append_assoc]
    · rw [stat_cons_self, hnow]
  · -- (3) segmentation download failure aborts diarization
    intro e w1 hseg
    obtain ⟨henv, hlog⟩ := download_model_frame hseg (segTemp_ne_nil w)
    refine ⟨diar_seg_err hseg, ?_, ?_⟩ <;>
      rcases hlog with hlog | hlog | hlog <;>
        simp [hlog, emb_ne_seg, Ne.symm emb_ne_seg, marker_ne_tmp cache_dir w,
          Ne.symm (marker_ne_tmp cache_dir w)]
  · -- (4) extraction failure aborts diarization before the embedding step
    intro y w1 e w2 hseg hex
    obtain ⟨henvB, hlogB⟩ := download_model_frame hseg (segTemp_ne_nil w)
    refine ⟨diar_extract_err hseg hex, ?_, ?_⟩ <;>
      rcases extract_inv hex with ⟨hcE, hrE, hw2⟩ | ⟨fsE, hcE, hw2, hcases⟩ <;>
        subst hw2 <;>
        rcases hlogB with hlogB | hlogB | hlogB <;>
          simp [hlogB, emb_ne_seg, Ne.symm emb_ne_seg, marker_ne_tmp cache_dir w,
            Ne.symm (marker_ne_tmp cache_dir w)]

def c3World : World :=
  { fs := [],
    net := fun _ => NetResp.status 200 [some "DATA"],
    tarExec := fun _ _ => ⟨true, "",
      [(["r", "pyannote", "sherpa-onnx-pyannote-segmentation-3-0", "model.onnx"], "SEG")]⟩,
    rmFails := fun _ => false,
    userInput := "",
    tmpDir := ["t"],
    now := "T",
    log := [] }

/-- Witness for C3: a fully successful acquisition at a concrete world
performs exactly the ordered trace. -/
theorem c3_witness :
    ∃ w', ensure_models_available ["r"] ModelSize.tiny c3World = (Except.ok true, w') ∧
      w'.log = c3World.log ++ [Event.prompt,
        Event.mkdir (pathJoin (pathJoin ["r"] "whisper") ModelSize.tiny.sizeName),
        Event.get (whisper_url ModelSize.tiny),
        Event.writeStart (get_whisper_model_path ["r"] ModelSize.tiny),
        Event.mkdir c3World.tmpDir, Event.get segmentation_url,
        Event.writeStart (segTempPath c3World),
        Event.mkdir (get_pyannote_model_dir ["r"]),
        Event.tarRun (segTempPath c3World) (get_pyannote_model_dir ["r"]),
        Event.rmFile (segTempPath c3World),
        Event.mkdir (get_pyannote_model_dir ["r"]), Event.get embedding_url,
        Event.writeStart (get_speaker_embedding_model_path ["r"]),
        Event.writeStart (get_pyannote_model_path ["r"])] := by
  refine ⟨_, rfl, ?_⟩
  exact ((c3_acquisition_order ["r"] ModelSize.tiny c3World (by decide) (by decide)
    (by decide)).2.1 _ rfl).1

end AudioTranscription
